import Mathlib

/-!
Verification of the WealthMap personal-finance web client.

The client-side logic of the repository is shallowly embedded here:
JavaScript numbers are modelled as rationals, dates as explicit
year/month/day records, nullable values as `Option`, and the React state
updates of the Goals planning board as pure functions on explicit state.
Each definition is translated from the corresponding source function;
theorems below settle the specified properties of the pages
(Goals board drag-and-drop, Simulation fan chart, Liabilities
amortization, Assets stock preview, Budget forecast).
-/

/-- A calendar date, as the client observes it through
`new Date(...).getFullYear()` and `new Date(year, 0, 1)`. -/
structure SDate where
  year : ℤ
  month : ℕ
  day : ℕ
deriving DecidableEq

/-- The date `new Date(y, 0, 1)` constructed on drop and on goal save:
January 1 of year `y`. -/
def jan1 (y : ℤ) : SDate := ⟨y, 1, 1⟩

/-- Goal type enum from the `Goal` interface in the Goals page. -/
inductive GoalType where
  | lump_sum
  | cash_flow
deriving DecidableEq

/-- The `Goal` interface of the Goals page (`id?: number; name; amount;
target_date; image_url?; goal_type`). -/
structure Goal where
  id : Option ℕ
  name : String
  amount : ℚ
  target_date : SDate
  image_url : Option String
  goal_type : GoalType
deriving DecidableEq

/-- The `GoalAnalysis` interface (`goal_id, probability, progress_ratio,
status`) returned by the goals feasibility endpoint. -/
structure GoalAnalysis where
  goal_id : ℕ
  probability : ℚ
  progress_ratio : ℚ
  status : String
deriving DecidableEq

/-- An income or expense record of the Budget page (`id, name, amount,
category`). -/
structure BudgetItem where
  id : ℕ
  name : String
  amount : ℚ
  category : String
deriving DecidableEq

/-- The `Asset` interface of the Assets page. -/
structure Asset where
  id : ℕ
  name : String
  category : String
  value : ℚ
  ticker : Option String
  shares : Option ℚ
deriving DecidableEq

/-- The `PreviewData` interface of the Assets page (live stock quote
preview). -/
structure PreviewData where
  ticker : String
  price : ℚ
  currency : String
  exchange_rate : ℚ
  total_value_twd : ℚ
deriving DecidableEq

/-- The `newAsset` form state of the Assets page. -/
structure AssetForm where
  name : String
  category : String
  value : ℚ
  ticker : String
  shares : ℚ
deriving DecidableEq

/-- The `.reduce((sum, item) => sum + f item, 0)` aggregation pattern used
throughout the pages. -/
def sumBy {α : Type} (f : α → ℚ) (l : List α) : ℚ :=
  l.foldl (fun s x => s + f x) 0

theorem foldl_add_eq {α : Type} (f : α → ℚ) (l : List α) (s : ℚ) :
    l.foldl (fun a x => a + f x) s = s + (l.map f).sum := by
  induction l generalizing s with
  | nil => simp
  | cons x xs ih => simp [List.foldl_cons, ih, add_assoc]

theorem sumBy_eq_sum_map {α : Type} (f : α → ℚ) (l : List α) :
    sumBy f l = (l.map f).sum := by
  simpa [sumBy] using foldl_add_eq f l 0

/-! ### Simulation page: fan-chart transform -/

/-- The shape of the simulation result consumed by the fan-chart
transform: per-year percentile series. -/
structure SimResult where
  years : List ℚ
  p5 : List ℚ
  p25 : List ℚ
  p50 : List ℚ
  p75 : List ℚ
  p95 : List ℚ
deriving DecidableEq

/-- One entry of `chartData` in the Simulation page: stacked band heights
plus the original percentile values kept for the tooltip. -/
structure ChartEntry where
  year : ℚ
  base : ℚ
  risk : ℚ
  low_growth : ℚ
  high_growth : ℚ
  max_growth : ℚ
  val_p5 : ℚ
  val_p25 : ℚ
  val_p50 : ℚ
  val_p75 : ℚ
  val_p95 : ℚ
deriving DecidableEq

/-- The `chartData` transform of the Simulation page: for each year index,
successive percentile differences become stacked band heights. -/
def chartData (res : SimResult) : List ChartEntry :=
  (List.range res.years.length).map fun index =>
    let year := res.years.getD index 0
    let p5 := res.p5.getD index 0
    let p25 := res.p25.getD index 0
    let p50 := res.p50.getD index 0
    let p75 := res.p75.getD index 0
    let p95 := res.p95.getD index 0
    { year := year
      base := p5
      risk := p25 - p5
      low_growth := p50 - p25
      high_growth := p75 - p50
      max_growth := p95 - p75
      val_p5 := p5
      val_p25 := p25
      val_p50 := p50
      val_p75 := p75
      val_p95 := p95 }

/-! ### Assets page: stock preview and submit gating -/

/-- The `disabled` condition of the Assets page submit button:
`loading || (newAsset.category === Stock/Fund && !previewData)`. -/
def submitDisabled (loading : Bool) (category : String)
    (previewData : Option PreviewData) : Bool :=
  loading || (decide (category = "Stock/Fund") && previewData.isNone)

/-- The state update performed when a stock preview request resolves:
`setNewAsset(prev => ({ ...prev, value: res.data.total_value_twd }))`. -/
def applyPreviewSuccess (form : AssetForm) (d : PreviewData) : AssetForm :=
  { form with value := d.total_value_twd }

/-! ### Liabilities page: amortization -/

/-- The `calculateMonthlyPayment` helper of the Liabilities page. The
annual rate is given in percent, matching the form field. -/
def calculateMonthlyPayment (amount rate : ℚ) (years : ℕ) : ℚ :=
  if amount = 0 ∨ years = 0 then 0
  else if rate = 0 then amount / ((years : ℚ) * 12)
  else
    let r := rate / 100 / 12
    let n := years * 12
    amount * (r * (1 + r) ^ n) / ((1 + r) ^ n - 1)

/-! ### Goals page: planning board -/

/-- The filter selector of the Goals board filter bar. -/
inductive FilterType where
  | all
  | high_impact
  | at_risk
deriving DecidableEq

/-- Lookup `analysis[goal.id!]` for the board filter: probability of the
goal's analysis record, defaulting to 0 when the map has no entry
(`|| { probability: 0, progress_ratio: 0 }`). -/
def filterProb (analysis : ℕ → Option GoalAnalysis) (g : Goal) : ℚ :=
  match g.id.bind analysis with
  | some a => a.probability
  | none => 0

/-- The `filteredGoals` computation of the Goals board: filter by risk or
financial impact.  The `ratio` guard against a non-positive annual income
mirrors `annualIncome > 0 ? g.amount / annualIncome : 0`. -/
def filteredGoals (goals : List Goal) (analysis : ℕ → Option GoalAnalysis)
    (annualIncome : ℚ) (filterType : FilterType) : List Goal :=
  goals.filter fun g =>
    match filterType with
    | .all => true
    | .high_impact =>
        let ratio := if annualIncome > 0 then g.amount / annualIncome else 0
        decide (ratio > 1 / 2)
    | .at_risk => decide (filterProb analysis g < 50)

/-- The defaulted analysis record handed to `DraggableGoal` when it is
rendered: `analysis[goal.id!] || { probability: 0, progress_ratio: 0,
status: 'Unknown' }`, projected to the three consumed fields. -/
def renderedAnalysis (analysis : ℕ → Option GoalAnalysis) (g : Goal) :
    ℚ × ℚ × String :=
  match g.id.bind analysis with
  | some a => (a.probability, a.progress_ratio, a.status)
  | none => (0, 0, "Unknown")

/-- The local-state commit performed by `handleDragEnd`: when both the
dragged goal id and the drop-target year are truthy, every goal with the
dragged id has its target date rewritten to January 1 of the new year. -/
def handleDragEnd (goals : List Goal) (goalId : Option ℕ)
    (newYear : Option ℤ) : List Goal :=
  match goalId, newYear with
  | some gid, some y =>
      if gid ≠ 0 ∧ y ≠ 0 then
        goals.map fun g =>
          if g.id = some gid then { g with target_date := jan1 y } else g
      else goals
  | _, _ => goals

/-- The component-local state of the Goals board touched by the drag-over
handler. -/
structure BoardState where
  goals : List Goal
  currentOverYear : Option ℤ
deriving DecidableEq

/-- `handleDragOver`: record the hovered year slot (or clear it); no goal
is mutated. -/
def handleDragOver (s : BoardState) (overYear : Option ℤ) : BoardState :=
  { s with currentOverYear := overYear }

/-- The live feedback tooltip rendered inside the drag overlay. -/
structure DragFeedback where
  oldYear : ℤ
  oldMonthly : ℚ
  newMonthly : ℚ
  monthlyDiff : ℚ
  isIncrease : Bool
deriving DecidableEq

/-- The financial-impact preview computed in the `DragOverlay` feedback
tooltip: old and new required monthly contributions from remaining years
floored at 1, and their difference. -/
def dragFeedback (g : Goal) (overYear currentYear : ℤ) : DragFeedback :=
  let oldYear := g.target_date.year
  let oldYearsLeft : ℤ := max 1 (oldYear - currentYear)
  let newYearsLeft : ℤ := max 1 (overYear - currentYear)
  let oldMonthly := g.amount / ((oldYearsLeft : ℚ) * 12)
  let newMonthly := g.amount / ((newYearsLeft : ℚ) * 12)
  let monthlyDiff := newMonthly - oldMonthly
  { oldYear := oldYear
    oldMonthly := oldMonthly
    newMonthly := newMonthly
    monthlyDiff := monthlyDiff
    isIncrease := decide (0 < monthlyDiff) }

/-- The request body `fetchGoalsAndAnalyze` posts to
`/simulation/goals_check`. -/
structure AnalyzeRequest where
  initial_portfolio : ℚ
  annual_contribution : ℚ
  years : ℕ
  goals : List Goal
deriving DecidableEq

/-- The feasibility request assembled by `fetchGoalsAndAnalyze` from the
four fetched collections; `none` when the goal list is empty, since the
post is guarded by `goalsRes.data.length > 0`. -/
def buildAnalyzeRequest (goals : List Goal) (assets : List Asset)
    (incomes expenses : List BudgetItem) : Option AnalyzeRequest :=
  if goals.length > 0 then
    some { initial_portfolio := sumBy (fun a => a.value) assets
           annual_contribution :=
             (sumBy (fun it => it.amount) incomes
               - sumBy (fun it => it.amount) expenses) * 12
           years := 65
           goals := goals }
  else none

/-- The `analysisMap` built from the feasibility response:
`analysisRes.data.forEach(item => { analysisMap[item.goal_id] = item })`,
so a later record with the same goal id overwrites an earlier one. -/
def buildAnalysisMap (resp : List GoalAnalysis) : ℕ → Option GoalAnalysis :=
  resp.foldl
    (fun m item => fun k => if k = item.goal_id then some item else m k)
    (fun _ => none)

/-! ### Budget page: net flow and forecast -/

/-- One entry of the Budget page `forecastData` array. -/
structure ForecastEntry where
  year : ℤ
  netFlow : ℚ
  baseFlow : ℚ
  goalsImpact : ℚ
deriving DecidableEq

/-- `netFlow` on the Budget page: total monthly income minus total monthly
expense. -/
def netFlow (incomes expenses : List BudgetItem) : ℚ :=
  sumBy (fun it => it.amount) incomes - sumBy (fun it => it.amount) expenses

/-- The Budget page `forecastData`: ten consecutive years starting at the
current year; each year subtracts the amounts of the goals targeted at
that year from the annual base flow. -/
def forecastData (incomes expenses : List BudgetItem) (goals : List Goal)
    (currentYear : ℤ) : List ForecastEntry :=
  (List.range 10).map fun (i : ℕ) =>
    let year : ℤ := currentYear + (i : ℤ)
    let annualBaseFlow := netFlow incomes expenses * 12
    let yearGoals := goals.filter fun g => decide (g.target_date.year = year)
    let goalsAmount := sumBy (fun g => g.amount) yearGoals
    { year := year
      netFlow := annualBaseFlow - goalsAmount
      baseFlow := annualBaseFlow
      goalsImpact := -goalsAmount }

/-! ### Sample data shared by witnesses -/

/-- A sample goal used to instantiate the board theorems. -/
def sampleGoal : Goal :=
  { id := some 1, name := "house", amount := 100, target_date := jan1 2030,
    image_url := none, goal_type := GoalType.lump_sum }

/-- A second sample goal with a distinct id. -/
def sampleGoal2 : Goal :=
  { id := some 2, name := "car", amount := 50, target_date := jan1 2027,
    image_url := none, goal_type := GoalType.cash_flow }

/-- A one-year sample simulation result with monotone percentiles. -/
def sampleSim : SimResult := ⟨[1], [10], [20], [30], [40], [50]⟩

/-! ### Claim theorems -/

/-- C2: for every year of a simulation result whose percentiles satisfy
P5 ≤ P25 ≤ P50 ≤ P75 ≤ P95, the four derived fan-chart band heights are
each non-negative and their sum equals P95 − P5. -/
theorem fanChart_bands_correct (res : SimResult) (e : ChartEntry)
    (he : e ∈ chartData res)
    (h1 : e.val_p5 ≤ e.val_p25) (h2 : e.val_p25 ≤ e.val_p50)
    (h3 : e.val_p50 ≤ e.val_p75) (h4 : e.val_p75 ≤ e.val_p95) :
    0 ≤ e.risk ∧ 0 ≤ e.low_growth ∧ 0 ≤ e.high_growth ∧ 0 ≤ e.max_growth ∧
    e.risk + e.low_growth + e.high_growth + e.max_growth
      = e.val_p95 - e.val_p5 := by
  rcases List.mem_map.mp he with ⟨i, hi, rfl⟩
  dsimp only [chartData] at h1 h2 h3 h4 ⊢
  refine ⟨by linarith, by linarith, by linarith, by linarith, by ring⟩

/-- C2 witness: the single entry of `sampleSim` has non-negative bands
summing to P95 − P5. -/
theorem fanChart_bands_witness :
    0 ≤ (⟨1, 10, 10, 10, 10, 10, 10, 20, 30, 40, 50⟩ : ChartEntry).risk ∧
    0 ≤ (⟨1, 10, 10, 10, 10, 10, 10, 20, 30, 40, 50⟩ : ChartEntry).low_growth ∧
    0 ≤ (⟨1, 10, 10, 10, 10, 10, 10, 20, 30, 40, 50⟩ : ChartEntry).high_growth ∧
    0 ≤ (⟨1, 10, 10, 10, 10, 10, 10, 20, 30, 40, 50⟩ : ChartEntry).max_growth ∧
    (⟨1, 10, 10, 10, 10, 10, 10, 20, 30, 40, 50⟩ : ChartEntry).risk
      + (⟨1, 10, 10, 10, 10, 10, 10, 20, 30, 40, 50⟩ : ChartEntry).low_growth
      + (⟨1, 10, 10, 10, 10, 10, 10, 20, 30, 40, 50⟩ : ChartEntry).high_growth
      + (⟨1, 10, 10, 10, 10, 10, 10, 20, 30, 40, 50⟩ : ChartEntry).max_growth
      = (⟨1, 10, 10, 10, 10, 10, 10, 20, 30, 40, 50⟩ : ChartEntry).val_p95
        - (⟨1, 10, 10, 10, 10, 10, 10, 20, 30, 40, 50⟩ : ChartEntry).val_p5 :=
  fanChart_bands_correct sampleSim _
    (by norm_num [chartData, sampleSim, List.range_succ]) (by norm_num)
    (by norm_num) (by norm_num) (by norm_num)

/-- C4: the drag-over preview derives the old and new required monthly
contributions as amount ÷ (max(1, target year − current year) × 12),
surfaces their difference with its direction, and the drag-over handler
mutates no stored goal state. -/
theorem dragPreview_correct (g : Goal) (overYear currentYear : ℤ)
    (s : BoardState) (o : Option ℤ) :
    (dragFeedback g overYear currentYear).oldMonthly
      = g.amount / (((max 1 (g.target_date.year - currentYear) : ℤ) : ℚ) * 12) ∧
    (dragFeedback g overYear currentYear).newMonthly
      = g.amount / (((max 1 (overYear - currentYear) : ℤ) : ℚ) * 12) ∧
    (dragFeedback g overYear currentYear).monthlyDiff
      = (dragFeedback g overYear currentYear).newMonthly
        - (dragFeedback g overYear currentYear).oldMonthly ∧
    (0 < (dragFeedback g overYear currentYear).monthlyDiff →
      (dragFeedback g overYear currentYear).isIncrease = true) ∧
    ((dragFeedback g overYear currentYear).monthlyDiff < 0 →
      (dragFeedback g overYear currentYear).isIncrease = false) ∧
    (handleDragOver s o).goals = s.goals := by
  refine ⟨rfl, rfl, rfl, ?_, ?_, rfl⟩
  · intro h
    simp only [dragFeedback, decide_eq_true_eq]
    exact h
  · intro h
    simp only [dragFeedback, decide_eq_false_iff_not, not_lt]
    exact le_of_lt h

/-- C4 witness: moving the sample goal from 2030 to 2026 with current year
2025 shortens the horizon, so the preview reports an increase. -/
theorem dragPreview_witness :
    (dragFeedback sampleGoal 2026 2025).isIncrease = true :=
  (dragPreview_correct sampleGoal 2026 2025 ⟨[], none⟩ none).2.2.2.1
    (by norm_num [dragFeedback, sampleGoal, jan1])

/-- C8: while the category is Stock/Fund and no preview has resolved, the
submit button is disabled; a resolved preview writes its returned total
into the value field and leaves the rest of the form unchanged. -/
theorem stockPreview_gating (loading : Bool) (category : String)
    (pd : Option PreviewData) (form : AssetForm) (d : PreviewData) :
    (category = "Stock/Fund" → pd = none →
      submitDisabled loading category pd = true) ∧
    (applyPreviewSuccess form d).value = d.total_value_twd ∧
    (applyPreviewSuccess form d).name = form.name ∧
    (applyPreviewSuccess form d).category = form.category ∧
    (applyPreviewSuccess form d).ticker = form.ticker ∧
    (applyPreviewSuccess form d).shares = form.shares := by
  refine ⟨?_, rfl, rfl, rfl, rfl, rfl⟩
  intro h1 h2
  subst h1 h2
  simp [submitDisabled]

/-- C8 witness: the gating evaluated at a concrete disabled state. -/
theorem stockPreview_gating_witness :
    submitDisabled false "Stock/Fund" none = true :=
  (stockPreview_gating false "Stock/Fund" none
    ⟨"tsmc", "Stock/Fund", 0, "TSM", 1⟩ ⟨"TSM", 100, "USD", 32, 3200⟩).1 rfl rfl

/-- C10: a goal with no entry in the analysis map is rendered and filtered
with default probability 0 and progress ratio 0, and is therefore always
included by the at-risk filter. -/
theorem defaultAnalysis_correct (goals : List Goal)
    (analysis : ℕ → Option GoalAnalysis) (annualIncome : ℚ) (g : Goal)
    (hg : g ∈ goals) (hnone : g.id.bind analysis = none) :
    renderedAnalysis analysis g = (0, 0, "Unknown") ∧
    filterProb analysis g = 0 ∧
    g ∈ filteredGoals goals analysis annualIncome FilterType.at_risk := by
  refine ⟨?_, ?_, ?_⟩
  · simp [renderedAnalysis, hnone]
  · simp [filterProb, hnone]
  · simp only [filteredGoals, List.mem_filter, hg, true_and]
    simp [filterProb, hnone]

/-- C10 witness: the sample goal with an empty analysis map. -/
theorem defaultAnalysis_witness :
    renderedAnalysis (fun _ => none) sampleGoal = (0, 0, "Unknown") ∧
    filterProb (fun _ => none) sampleGoal = 0 ∧
    sampleGoal ∈ filteredGoals [sampleGoal] (fun _ => none) 0
      FilterType.at_risk :=
  defaultAnalysis_correct [sampleGoal] (fun _ => none) 0 sampleGoal
    (by simp) rfl

/-- C7: the budget page shows net monthly flow I − E, and with no goals
every forecast year's net cash flow equals (I − E) × 12; in particular one
income of 5000 and one expense of 2000 yield 3000 per month and 36000 per
forecast year. -/
theorem budgetFlow_correct (incomes expenses : List BudgetItem) (y : ℤ) :
    netFlow incomes expenses
      = sumBy (fun it => it.amount) incomes
        - sumBy (fun it => it.amount) expenses ∧
    (∀ e ∈ forecastData incomes expenses [] y,
      e.netFlow = netFlow incomes expenses * 12) ∧
    netFlow [⟨1, "salary", 5000, "Salary"⟩] [⟨2, "rent", 2000, "Housing"⟩]
      = 3000 ∧
    (∀ e ∈ forecastData [⟨1, "salary", 5000, "Salary"⟩]
        [⟨2, "rent", 2000, "Housing"⟩] [] y, e.netFlow = 36000) := by
  refine ⟨rfl, ?_, by norm_num [netFlow, sumBy], ?_⟩
  · intro e he
    rcases List.mem_map.mp he with ⟨i, hi, rfl⟩
    simp [sumBy]
  · intro e he
    rcases List.mem_map.mp he with ⟨i, hi, rfl⟩
    norm_num [netFlow, sumBy]

/-- C7 witness: the first forecast entry for the concrete income/expense
pair carries a net flow of 36000. -/
theorem budgetFlow_witness :
    ((forecastData [⟨1, "salary", 5000, "Salary"⟩]
        [⟨2, "rent", 2000, "Housing"⟩] [] 2025).get
      ⟨0, by simp [forecastData]⟩).netFlow = 36000 :=
  (budgetFlow_correct [⟨1, "salary", 5000, "Salary"⟩]
    [⟨2, "rent", 2000, "Housing"⟩] 2025).2.2.2 _ (List.get_mem _ _ _)

/-- C9: the budget forecast has exactly 10 entries for 10 consecutive
calendar years starting at the current year, and each year's net flow is
the annual base flow minus the amounts of the goals targeted at that
year. -/
theorem forecastShape_correct (incomes expenses : List BudgetItem)
    (goals : List Goal) (y : ℤ) :
    (forecastData incomes expenses goals y).length = 10 ∧
    ∀ i (h : i < (forecastData incomes expenses goals y).length),
      ((forecastData incomes expenses goals y).get ⟨i, h⟩).year
        = y + (i : ℤ) ∧
      ((forecastData incomes expenses goals y).get ⟨i, h⟩).netFlow
        = netFlow incomes expenses * 12
          - sumBy (fun g => g.amount)
              (goals.filter fun g =>
                decide (g.target_date.year = y + (i : ℤ))) := by
  constructor
  · simp only [forecastData, List.length_map, List.length_range]
  · intro i h
    simp only [forecastData, List.get_eq_getElem, List.getElem_map,
      List.getElem_range]
    exact ⟨trivial, trivial⟩

/-- C9 witness: the fourth forecast entry with no data is for year 2028
and carries the bare annual base flow. -/
theorem forecastShape_witness :
    ((forecastData [] [] [] 2025).get ⟨3, by decide⟩).year
      = 2025 + ((3 : ℕ) : ℤ) ∧
    ((forecastData [] [] [] 2025).get ⟨3, by decide⟩).netFlow
      = netFlow [] [] * 12
        - sumBy (fun g => g.amount)
            (([] : List Goal).filter fun g =>
              decide (g.target_date.year = 2025 + ((3 : ℕ) : ℤ))) :=
  (forecastShape_correct [] [] [] 2025).2 3 (by decide)

/-- C5 counterexample: with an annual income of 0, the sample goal has
amount greater than half the income, yet the high-impact filter excludes
it, because the filter's ratio collapses to 0 for non-positive income. -/
theorem goalFilters_cex :
    filteredGoals [sampleGoal] (fun _ => none) 0 FilterType.high_impact
      = [] ∧
    (1 / 2 : ℚ) * 0 < sampleGoal.amount := by
  constructor
  · simp [filteredGoals, sampleGoal]
  · norm_num [sampleGoal]

/-- C5 amended: the at-risk filter returns exactly the goals whose
(defaulted) analysis probability is below 50; when the annual income is
positive the high-impact filter returns exactly the goals whose amount
exceeds half the annual income, and when it is not positive the
high-impact filter returns no goals. -/
theorem goalFilters_correct (goals : List Goal)
    (analysis : ℕ → Option GoalAnalysis) (annualIncome : ℚ) (g : Goal) :
    (g ∈ filteredGoals goals analysis annualIncome FilterType.at_risk ↔
      g ∈ goals ∧ filterProb analysis g < 50) ∧
    (0 < annualIncome →
      (g ∈ filteredGoals goals analysis annualIncome FilterType.high_impact ↔
        g ∈ goals ∧ (1 / 2) * annualIncome < g.amount)) ∧
    (annualIncome ≤ 0 →
      filteredGoals goals analysis annualIncome FilterType.high_impact
        = []) := by
  refine ⟨?_, ?_, ?_⟩
  · simp [filteredGoals, List.mem_filter]
  · intro h
    simp [filteredGoals, List.mem_filter, h, lt_div_iff₀ h]
  · intro h
    have h2 : ¬ (0 : ℚ) < annualIncome := not_lt.mpr h
    simp [filteredGoals, h2, List.filter_eq_nil_iff]

/-- C5 witness for the amended claim: with a positive annual income of 100,
the sample goal of amount 100 passes the high-impact filter. -/
theorem goalFilters_witness :
    sampleGoal ∈
      filteredGoals [sampleGoal] (fun _ => none) 100
        FilterType.high_impact :=
  ((goalFilters_correct [sampleGoal] (fun _ => none) 100 sampleGoal).2.1
    (by norm_num)).mpr ⟨by simp, by norm_num [sampleGoal]⟩

/-- C1: committing a drag of the goal at index i (whose id is the dragged
id, nonzero, with ids unique) onto a valid year slot y rewrites only that
goal's target date to January 1 of y and leaves every other goal
unchanged. -/
theorem dragEnd_frame (goals : List Goal) (gid : ℕ) (y : ℤ) (i : ℕ)
    (hi : i < goals.length)
    (hid : (goals.get ⟨i, hi⟩).id = some gid)
    (hgid : gid ≠ 0) (hy : y ≠ 0)
    (huniq : ∀ j (hj : j < goals.length), j ≠ i →
      (goals.get ⟨j, hj⟩).id ≠ some gid) :
    (handleDragEnd goals (some gid) (some y)).length = goals.length ∧
    (handleDragEnd goals (some gid) (some y))[i]?
      = some { goals.get ⟨i, hi⟩ with target_date := jan1 y } ∧
    ∀ j, j ≠ i →
      (handleDragEnd goals (some gid) (some y))[j]? = goals[j]? := by
  have hIf : handleDragEnd goals (some gid) (some y)
      = goals.map fun g =>
          if g.id = some gid then { g with target_date := jan1 y }
          else g := by
    simp [handleDragEnd, hgid, hy]
  refine ⟨?_, ?_, ?_⟩
  · rw [hIf, List.length_map]
  · rw [hIf, List.getElem?_map, List.getElem?_eq_getElem hi]
    rw [List.get_eq_getElem] at hid
    simp [hid, List.get_eq_getElem]
  · intro j hj
    rw [hIf, List.getElem?_map]
    cases hlt : goals[j]? with
    | none => simp
    | some g =>
        have hjl : j < goals.length := by
          rcases List.getElem?_eq_some_iff.mp hlt with ⟨h, _⟩
          exact h
        have hgg : goals.get ⟨j, hjl⟩ = g := by
          rw [List.get_eq_getElem]
          rcases List.getElem?_eq_some_iff.mp hlt with ⟨h, e⟩
          exact e
        have hne := huniq j hjl hj
        rw [hgg] at hne
        simp [hne]

/-- C1 witness: dragging the first sample goal onto year 2040 in a
two-goal board. -/
theorem dragEnd_frame_witness :
    (handleDragEnd [sampleGoal, sampleGoal2] (some 1) (some 2040)).length
      = 2 ∧
    (handleDragEnd [sampleGoal, sampleGoal2] (some 1) (some 2040))[0]?
      = some { sampleGoal with target_date := jan1 2040 } ∧
    (handleDragEnd [sampleGoal, sampleGoal2] (some 1) (some 2040))[1]?
      = some sampleGoal2 := by
  have h := dragEnd_frame [sampleGoal, sampleGoal2] 1 2040 0 (by decide)
    (by decide) (by decide) (by decide)
    (by
      intro j hj hne
      match j, hj with
      | 0, _ => exact absurd rfl hne
      | 1, _ => simp [sampleGoal2])
  refine ⟨h.1, h.2.1, ?_⟩
  rw [h.2.2 1 (by decide)]
  rfl

/-- C3: the client-computed monthly payment for a liability of amount A,
annual percent rate with fraction r = rate/100 and term n years equals
A·(r/12)/(1−(1+r/12)^(−12n)) when r > 0, equals A/(12n) when r = 0, and
equals 0 when the term is 0. -/
theorem monthlyPayment_correct (A rate : ℚ) (n : ℕ) :
    (0 < rate / 100 → n ≠ 0 →
      calculateMonthlyPayment A rate n
        = A * ((rate / 100) / 12)
          / (1 - (1 + (rate / 100) / 12) ^ (-(12 * (n : ℤ))))) ∧
    (rate = 0 → n ≠ 0 →
      calculateMonthlyPayment A rate n = A / (12 * (n : ℚ))) ∧
    (n = 0 → calculateMonthlyPayment A rate n = 0) := by
  refine ⟨?_, ?_, ?_⟩
  · intro hr hn
    have hrpos : 0 < rate := by
      by_contra hcon
      push_neg at hcon
      have : rate / 100 ≤ 0 := by
        apply div_nonpos_of_nonpos_of_nonneg hcon
        norm_num
      linarith
    by_cases hA : A = 0
    · subst hA
      simp [calculateMonthlyPayment]
    · have hcond : ¬ (A = 0 ∨ n = 0) := by
        push_neg
        exact ⟨hA, hn⟩
      rw [calculateMonthlyPayment, if_neg hcond, if_neg hrpos.ne']
      dsimp only
      set r : ℚ := rate / 100 / 12 with hrdef
      have hr12 : 0 < r := by
        rw [hrdef]
        positivity
      have hx : (1 : ℚ) < 1 + r := by linarith
      have hN : n * 12 ≠ 0 := Nat.mul_ne_zero hn (by norm_num)
      have hxN : (1 : ℚ) < (1 + r) ^ (n * 12) := one_lt_pow₀ hx hN
      have hxNne : ((1 + r) ^ (n * 12) : ℚ) ≠ 0 := by positivity
      have hden : ((1 + r) ^ (n * 12) : ℚ) - 1 ≠ 0 :=
        sub_ne_zero.mpr (ne_of_gt hxN)
      have hzp : (1 + r) ^ (-(12 * (n : ℤ))) = ((1 + r) ^ (n * 12) : ℚ)⁻¹ := by
        rw [zpow_neg]
        congr 1
        rw [show (12 * (n : ℤ)) = ((n * 12 : ℕ) : ℤ) by push_cast; ring]
        exact zpow_natCast _ _
      rw [hzp, show (1 : ℚ) - ((1 + r) ^ (n * 12))⁻¹
          = ((1 + r) ^ (n * 12) - 1) / (1 + r) ^ (n * 12) from by
        field_simp, div_div_eq_mul_div]
      ring
  · intro h0 hn
    by_cases hA : A = 0
    · subst hA
      simp [calculateMonthlyPayment]
    · have hcond : ¬ (A = 0 ∨ n = 0) := by
        push_neg
        exact ⟨hA, hn⟩
      rw [calculateMonthlyPayment, if_neg hcond, if_pos h0]
      ring
  · intro h0
    subst h0
    simp [calculateMonthlyPayment]

/-- C3 witness: a 1200 loan at 12 percent over one year evaluated through
the positive-rate branch. -/
theorem monthlyPayment_witness :
    calculateMonthlyPayment 1200 12 1
      = 1200 * ((12 / 100) / 12)
        / (1 - (1 + (12 / 100) / 12) ^ (-(12 * ((1 : ℕ) : ℤ)))) :=
  (monthlyPayment_correct 1200 12 1).1 (by norm_num) one_ne_zero

/-- Folding response records into the analysis map leaves keys that occur
in none of the records untouched. -/
theorem analysisMap_foldl_not_mem (resp : List GoalAnalysis)
    (m : ℕ → Option GoalAnalysis) (k : ℕ)
    (hk : k ∉ resp.map fun x => x.goal_id) :
    resp.foldl
      (fun m item => fun k => if k = item.goal_id then some item else m k)
      m k = m k := by
  induction resp generalizing m with
  | nil => rfl
  | cons x xs ih =>
      simp only [List.map_cons, List.mem_cons, not_or] at hk
      simp only [List.foldl_cons]
      rw [ih _ hk.2]
      simp [hk.1]

/-- With pairwise-distinct goal ids, the folded analysis map sends each
record's goal id to that record, for any initial map. -/
theorem analysisMap_foldl_mem (resp : List GoalAnalysis)
    (hnd : (resp.map fun x => x.goal_id).Nodup)
    (ga : GoalAnalysis) (hga : ga ∈ resp) (m : ℕ → Option GoalAnalysis) :
    resp.foldl
      (fun m item => fun k => if k = item.goal_id then some item else m k)
      m ga.goal_id = some ga := by
  induction resp generalizing m with
  | nil => cases hga
  | cons x xs ih =>
      simp only [List.map_cons, List.nodup_cons] at hnd
      simp only [List.foldl_cons]
      rcases List.mem_cons.mp hga with h | h
      · subst h
        rw [analysisMap_foldl_not_mem xs _ _ hnd.1]
        simp
      · exact ih hnd.2 h _

/-- C6 counterexample: a goal-collection change that leaves the list empty
(deleting the last goal) issues no feasibility request at all, against the
claim that every change resubmits the goal list. -/
theorem analyzeRequest_empty_cex :
    buildAnalyzeRequest []
      [⟨1, "cash", "Cash/Bank Deposit", 100, none, none⟩] [] [] = none :=
  rfl

/-- C6 amended: whenever the fetched goal list is nonempty, the board
submits the full goal list with initial_portfolio the sum of asset values
and annual_contribution (income − expense) × 12; an empty list issues no
request; and each returned record is mapped back onto its goal id. -/
theorem analyzeRequest_correct (goals : List Goal) (assets : List Asset)
    (incomes expenses : List BudgetItem) (resp : List GoalAnalysis) :
    (goals ≠ [] →
      buildAnalyzeRequest goals assets incomes expenses
        = some { initial_portfolio := sumBy (fun a => a.value) assets
                 annual_contribution :=
                   (sumBy (fun it => it.amount) incomes
                     - sumBy (fun it => it.amount) expenses) * 12
                 years := 65
                 goals := goals }) ∧
    (goals = [] → buildAnalyzeRequest goals assets incomes expenses
        = none) ∧
    ((resp.map fun x => x.goal_id).Nodup →
      ∀ ga ∈ resp, buildAnalysisMap resp ga.goal_id = some ga) := by
  refine ⟨?_, ?_, fun hnd ga hga => analysisMap_foldl_mem resp hnd ga hga _⟩
  · intro h
    rw [buildAnalyzeRequest, if_pos (List.length_pos.mpr h)]
  · intro h
    subst h
    rfl

/-- C6 witness: a singleton goal list produces the request, and a
one-record response maps its probability back onto goal id 1. -/
theorem analyzeRequest_witness :
    buildAnalyzeRequest [sampleGoal] [] [] []
      = some { initial_portfolio := sumBy (fun a => a.value) ([] : List Asset)
               annual_contribution :=
                 (sumBy (fun it => it.amount) ([] : List BudgetItem)
                   - sumBy (fun it => it.amount) ([] : List BudgetItem)) * 12
               years := 65
               goals := [sampleGoal] } ∧
    buildAnalysisMap [⟨1, 80, 1 / 2, "on_track"⟩] 1
      = some ⟨1, 80, 1 / 2, "on_track"⟩ :=
  ⟨(analyzeRequest_correct [sampleGoal] [] [] [] []).1
      (List.cons_ne_nil _ _),
   (analyzeRequest_correct [sampleGoal] [] [] []
      [⟨1, 80, 1 / 2, "on_track"⟩]).2.2 (by simp)
      ⟨1, 80, 1 / 2, "on_track"⟩ (by simp)⟩
